import Mathlib

/-
Verification development for the amplifier-app-server repository.

The Python sources are shallowly embedded as executable Lean definitions:
  * `notification_processor.py` (`NotificationProcessor._score_notification`,
    `ScoringConfig`, `ScoringResult`)
  * `llm_scorer.py` (`LLMScorer._parse_response`, `LLMScoringResult`)
  * `session_manager.py` (`SessionManager.create_session`, `get_session`,
    `get_session_info`, `list_sessions`, `execute`, `stop_session`), with the
    asyncio lock discipline of `execute` / `_stream_execute` modelled as an
    interleaving small-step semantics
  * `device_manager.py` (`DeviceManager.send_to_device`, `disconnect`)

Python dicts are modelled as association lists with dict semantics (unique
keys: insert replaces, erase removes every binding of the key), Python floats
as exact rationals (every score the heuristic scorer can build is a sum drawn
from 0.5/0.2/0.3/0.3/0.2 capped at 1.0, on which IEEE double arithmetic agrees
exactly with rational arithmetic at the 0.3 and 0.6 decision boundaries), and
raised exceptions as `Except` / `Option` error values.  Wall-clock fields
(`created_at`, `last_activity`, `last_seen`) are modelled as opaque `Nat`
ticks or omitted where no claim depends on them.
-/

namespace AmpServer

/-! ## Generic dict-as-association-list operations

Model of Python `dict` for string keys: `lookupA` is `d.get(k)`, `insertA`
is `d[k] = v` (replaces the binding in place, keeping insertion order),
`eraseA` is `d.pop(k, None)`.  On lists with unique keys these coincide with
dict semantics; `eraseA` removes every binding so that its specification
holds without a uniqueness invariant. -/

def lookupA {α : Type} (k : String) : List (String × α) → Option α
  | [] => none
  | (k', v) :: t => if k' == k then some v else lookupA k t

def insertA {α : Type} (k : String) (v : α) : List (String × α) → List (String × α)
  | [] => [(k, v)]
  | (k', v') :: t => if k' == k then (k, v) :: t else (k', v') :: insertA k v t

def eraseA {α : Type} (k : String) (l : List (String × α)) : List (String × α) :=
  l.filter (fun p => !(p.1 == k))

theorem lookupA_insertA_self {α : Type} (k : String) (v : α) (l : List (String × α)) :
    lookupA k (insertA k v l) = some v := by
  induction l with
  | nil => simp [insertA, lookupA]
  | cons p t ih =>
    obtain ⟨k', v'⟩ := p
    by_cases h : k' == k <;> simp [insertA, lookupA, h, ih]

theorem lookupA_eraseA_self {α : Type} (k : String) (l : List (String × α)) :
    lookupA k (eraseA k l) = none := by
  induction l with
  | nil => simp [eraseA, lookupA]
  | cons p t ih =>
    obtain ⟨k', v'⟩ := p
    by_cases h : k' == k <;>
      simp_all [eraseA, List.filter_cons, lookupA, h]

theorem lookupA_mem {α : Type} {k : String} {v : α} {l : List (String × α)}
    (h : lookupA k l = some v) : v ∈ l.map (·.2) := by
  induction l with
  | nil => simp [lookupA] at h
  | cons p t ih =>
    obtain ⟨k', v'⟩ := p
    by_cases hk : k' == k
    · simp only [lookupA, hk, if_true, Option.some.injEq] at h
      simp [h.symm]
    · simp only [lookupA, hk, Bool.false_eq_true, if_false] at h
      simpa using Or.inr (ih h)

/-! ## String helpers modelling Python `str` operations (ASCII fragment) -/

/-- Model of Python `str.lower()` (ASCII case folding, which covers every
string the repository's configuration lists and tests use). -/
def lowerStr (s : String) : String := String.mk (s.toList.map Char.toLower)

/-- `leadMatch needle hay` is true when `needle` is an initial segment of
`hay` (model of Python `str.startswith`). -/
def leadMatch (needle hay : List Char) : Bool :=
  match needle, hay with
  | [], _ => true
  | a :: as, b :: bs => if a == b then leadMatch as bs else false
  | _ :: _, [] => false

/-- `subOccurs needle hay` is true when `needle` occurs contiguously in
`hay`; the empty needle occurs in every string, as for Python `in`. -/
def subOccurs (needle : List Char) : List Char → Bool
  | [] => needle.isEmpty
  | c :: t => leadMatch needle (c :: t) || subOccurs needle t

/-- Model of the Python substring test `needle in hay`. -/
def pyIn (needle hay : String) : Bool := subOccurs needle.toList hay.toList

/-- Model of Python `sep.join(parts)`. -/
def joinSep (sep : String) : List String → String
  | [] => ""
  | [x] => x
  | x :: xs => x ++ sep ++ joinSep sep xs

/-! ## Heuristic notification scoring
Embedding of `notification_processor.py`, lines 19-64 (`ScoringConfig`,
`ScoringResult`) and 194-277 (`NotificationProcessor._score_notification`). -/

/-- `ScoringConfig` (notification_processor.py lines 19-54).  The
`push_threshold` float is modelled as an exact rational. -/
structure ScoringConfig where
  vip_senders : List String := []
  urgent_keywords : List String :=
    ["urgent", "asap", "immediately", "critical", "emergency",
     "deadline", "today", "now", "important", "action required",
     "blocking", "blocked", "p0", "p1", "outage", "down"]
  action_keywords : List String :=
    ["approve", "review", "sign", "decision", "confirm",
     "reply", "respond", "answer", "vote", "choose"]
  priority_apps : List String :=
    ["Microsoft Teams", "Outlook", "Microsoft Outlook"]
  low_priority_apps : List String :=
    ["Snipping Tool", "Phone Link", "Windows Security",
     "Microsoft Store", "Settings"]
  push_threshold : ℚ := 6/10
  user_aliases : List String := []
deriving Repr, DecidableEq

/-- The default configuration (`ScoringConfig()` with every field left at its
`field(default_factory=...)` value). -/
def defaultScoringConfig : ScoringConfig := {}

/-- `ScoringResult` (notification_processor.py lines 57-64); the float score
is modelled as an exact rational. -/
structure ScoringResult where
  score : ℚ
  decision : String
  rationale : String
  tags : List String := []
deriving Repr, DecidableEq

/-- The notification dict handed to `_score_notification` (a stored row; the
fields the scorer reads are `app_name`, `app_id`, `title`, `body`, `sender`,
each of which may be missing/None — modelled as `Option`). -/
structure Notification where
  app_id : String := ""
  app_name : Option String := none
  title : String := ""
  body : Option String := none
  sender : Option String := none
deriving Repr, DecidableEq

/-- `notification.get("app_name") or notification.get("app_id", "")`
(line 203): a missing or empty `app_name` falls through to `app_id`. -/
def appNameOf (n : Notification) : String :=
  match n.app_name with
  | some s => if s = "" then n.app_id else s
  | none => n.app_id

/-- `notification.get("body", "") or ""` (line 205). -/
def bodyOf (n : Notification) : String := n.body.getD ""

/-- `notification.get("sender", "") or ""` (line 206). -/
def senderOf (n : Notification) : String := n.sender.getD ""

/-- `content = f"{title} {body}".lower()` (line 207). -/
def contentOf (n : Notification) : String :=
  lowerStr (n.title ++ " " ++ bodyOf n)

/-- Lines 210-211: some configured low-priority app is a case-insensitive
substring of the app name. -/
def lowPriorityMatches (cfg : ScoringConfig) (n : Notification) : Bool :=
  cfg.low_priority_apps.any
    (fun low_app => pyIn (lowerStr low_app) (lowerStr (appNameOf n)))

/-- Lines 220-221: the first configured VIP that is a case-insensitive
substring of the sender (the `for`/`break` loop fires at most once). -/
def vipFind (cfg : ScoringConfig) (n : Notification) : Option String :=
  cfg.vip_senders.find? (fun vip => pyIn (lowerStr vip) (lowerStr (senderOf n)))

/-- Lines 228-229: first priority app matching the app name. -/
def prioFind (cfg : ScoringConfig) (n : Notification) : Option String :=
  cfg.priority_apps.find?
    (fun priority_app => pyIn (lowerStr priority_app) (lowerStr (appNameOf n)))

/-- Lines 236-237: first user alias appearing in the lowered title+body. -/
def aliasFind (cfg : ScoringConfig) (n : Notification) : Option String :=
  cfg.user_aliases.find? (fun al => pyIn (lowerStr al) (contentOf n))

/-- Lines 244-245: first urgent keyword appearing in the lowered title+body. -/
def urgentFind (cfg : ScoringConfig) (n : Notification) : Option String :=
  cfg.urgent_keywords.find? (fun keyword => pyIn (lowerStr keyword) (contentOf n))

/-- Lines 252-253: first action keyword appearing in the lowered title+body. -/
def actionFind (cfg : ScoringConfig) (n : Notification) : Option String :=
  cfg.action_keywords.find? (fun keyword => pyIn (lowerStr keyword) (contentOf n))

/-- The accumulated score before the cap (lines 199, 219-257): `score`
starts at 0.0 and each category's loop adds its bonus at most once (the
`break` ends the loop on the first match). -/
def heurScoreRaw (cfg : ScoringConfig) (n : Notification) : ℚ :=
  (if (vipFind cfg n).isSome then 5/10 else 0)
    + (if (prioFind cfg n).isSome then 2/10 else 0)
    + (if (aliasFind cfg n).isSome then 3/10 else 0)
    + (if (urgentFind cfg n).isSome then 3/10 else 0)
    + (if (actionFind cfg n).isSome then 2/10 else 0)

/-- Line 260: `score = min(score, 1.0)`. -/
def heurScore (cfg : ScoringConfig) (n : Notification) : ℚ :=
  min (heurScoreRaw cfg n) 1

/-- Lines 263-268: threshold table mapping a score to a decision. -/
def heurDecision (cfg : ScoringConfig) (score : ℚ) : String :=
  if cfg.push_threshold ≤ score then "push"
  else if (3/10 : ℚ) ≤ score then "summarize"
  else "suppress"

/-- Lines 223-224, 231-232, ...: the tag appended by each category that
fired, in source order. -/
def heurTags (cfg : ScoringConfig) (n : Notification) : List String :=
  (if (vipFind cfg n).isSome then ["vip"] else [])
    ++ (if (prioFind cfg n).isSome then ["priority-app"] else [])
    ++ (if (aliasFind cfg n).isSome then ["mention"] else [])
    ++ (if (urgentFind cfg n).isSome then ["urgent"] else [])
    ++ (if (actionFind cfg n).isSome then ["action-needed"] else [])

/-- The human-readable reasons appended by each category (lines 224, 232,
240, 248, 256), using the first matching list entry as the source does. -/
def heurReasons (cfg : ScoringConfig) (n : Notification) : List String :=
  (match vipFind cfg n with
    | some _ => ["VIP sender: " ++ senderOf n] | none => [])
    ++ (match prioFind cfg n with
        | some _ => ["Priority app: " ++ appNameOf n] | none => [])
    ++ (match aliasFind cfg n with
        | some al => ["Mentioned: " ++ al] | none => [])
    ++ (match urgentFind cfg n with
        | some keyword => ["Urgent keyword: " ++ keyword] | none => [])
    ++ (match actionFind cfg n with
        | some keyword => ["Action keyword: " ++ keyword] | none => [])

/-- `NotificationProcessor._score_notification` (lines 194-277): the
low-priority short-circuit, then the five accumulating category checks, the
cap at 1.0, the threshold table and the rationale string. -/
def score_notification (cfg : ScoringConfig) (n : Notification) : ScoringResult :=
  if lowPriorityMatches cfg n then
    { score := 1/10
      decision := "suppress"
      rationale := "Low-priority app: " ++ appNameOf n
      tags := ["low-priority-app"] }
  else
    { score := heurScore cfg n
      decision := heurDecision cfg (heurScore cfg n)
      rationale :=
        if heurReasons cfg n = [] then "No special signals detected"
        else joinSep "; " (heurReasons cfg n)
      tags := heurTags cfg n }

/-! ## Spec-side formulation of the heuristic scorer (for the refinement
claims C3-C5).  These definitions follow the spec's words (§4.3 step 2 and
the §3 decision taxonomy), to be compared with the embedding above. -/

/-- Spec §4.3: "sender matches a VIP list (substring, case-insensitive)". -/
def vipMatches (cfg : ScoringConfig) (n : Notification) : Bool :=
  cfg.vip_senders.any (fun vip => pyIn (lowerStr vip) (lowerStr (senderOf n)))

/-- Spec §4.3: "app matches a priority list". -/
def prioMatches (cfg : ScoringConfig) (n : Notification) : Bool :=
  cfg.priority_apps.any
    (fun priority_app => pyIn (lowerStr priority_app) (lowerStr (appNameOf n)))

/-- Spec §4.3: "any user alias appears in title+body". -/
def aliasMatches (cfg : ScoringConfig) (n : Notification) : Bool :=
  cfg.user_aliases.any (fun al => pyIn (lowerStr al) (contentOf n))

/-- Spec §4.3: "any urgent keyword appears". -/
def urgentMatches (cfg : ScoringConfig) (n : Notification) : Bool :=
  cfg.urgent_keywords.any (fun keyword => pyIn (lowerStr keyword) (contentOf n))

/-- Spec §4.3: "any action keyword appears". -/
def actionMatches (cfg : ScoringConfig) (n : Notification) : Bool :=
  cfg.action_keywords.any (fun keyword => pyIn (lowerStr keyword) (contentOf n))

/-- Spec §4.3 step 2: at most one bonus per category
(0.5/0.2/0.3/0.3/0.2), final score clamped to [0,1]. -/
def specScore (cfg : ScoringConfig) (n : Notification) : ℚ :=
  min 1
    ((if vipMatches cfg n then 5/10 else 0)
      + (if prioMatches cfg n then 2/10 else 0)
      + (if aliasMatches cfg n then 3/10 else 0)
      + (if urgentMatches cfg n then 3/10 else 0)
      + (if actionMatches cfg n then 2/10 else 0))

/-- Spec §3 decision taxonomy: push when score ≥ push-threshold, summarize
when 0.3 ≤ score < threshold, suppress below 0.3. -/
def specDecision (cfg : ScoringConfig) (score : ℚ) : String :=
  if cfg.push_threshold ≤ score then "push"
  else if (3/10 : ℚ) ≤ score then "summarize"
  else "suppress"

theorem find?_isSome_eq_any {α : Type} (p : α → Bool) (l : List α) :
    (l.find? p).isSome = l.any p := by
  induction l with
  | nil => rfl
  | cons a t ih => by_cases h : p a <;> simp [List.find?_cons, h, ih]

theorem vipFind_isSome (cfg : ScoringConfig) (n : Notification) :
    (vipFind cfg n).isSome = vipMatches cfg n := find?_isSome_eq_any _ _

theorem prioFind_isSome (cfg : ScoringConfig) (n : Notification) :
    (prioFind cfg n).isSome = prioMatches cfg n := find?_isSome_eq_any _ _

theorem aliasFind_isSome (cfg : ScoringConfig) (n : Notification) :
    (aliasFind cfg n).isSome = aliasMatches cfg n := find?_isSome_eq_any _ _

theorem urgentFind_isSome (cfg : ScoringConfig) (n : Notification) :
    (urgentFind cfg n).isSome = urgentMatches cfg n := find?_isSome_eq_any _ _

theorem actionFind_isSome (cfg : ScoringConfig) (n : Notification) :
    (actionFind cfg n).isSome = actionMatches cfg n := find?_isSome_eq_any _ _

/-- Shared bridge: off the low-priority path, the computed score is the
spec's clamped per-category sum. -/
theorem heurScore_eq_specScore (cfg : ScoringConfig) (n : Notification) :
    heurScore cfg n = specScore cfg n := by
  unfold heurScore heurScoreRaw specScore
  rw [vipFind_isSome, prioFind_isSome, aliasFind_isSome, urgentFind_isSome,
    actionFind_isSome, min_comm]

theorem score_notification_score_of_not_low (cfg : ScoringConfig)
    (n : Notification) (h : lowPriorityMatches cfg n = false) :
    (score_notification cfg n).score = specScore cfg n := by
  rw [score_notification, h]
  simpa using heurScore_eq_specScore cfg n

/-- C3: for every notification whose app does not match the low-priority
list, the heuristic score equals the clamp at 1.0 of the sum of at-most-one
bonus per category (0.5 VIP, 0.2 priority app, 0.3 alias mention, 0.3 urgent
keyword, 0.2 action keyword), and the decision is push when the score
reaches the configured push threshold, summarize when it is at least 0.3 but
below the threshold, and suppress otherwise. -/
theorem heuristic_score_is_clamped_category_sum (cfg : ScoringConfig)
    (n : Notification) (h : lowPriorityMatches cfg n = false) :
    (score_notification cfg n).score = specScore cfg n ∧
    (score_notification cfg n).decision = specDecision cfg (specScore cfg n) := by
  refine ⟨score_notification_score_of_not_low cfg n h, ?_⟩
  rw [score_notification, h]
  show heurDecision cfg (heurScore cfg n) = specDecision cfg (specScore cfg n)
  rw [heurScore_eq_specScore]
  rfl

def c3cfg : ScoringConfig :=
  { vip_senders := ["boss"], urgent_keywords := ["urgent"],
    action_keywords := ["approve"], priority_apps := ["Teams"],
    low_priority_apps := ["Settings"], push_threshold := 6/10,
    user_aliases := ["alex"] }

def c3n : Notification :=
  { app_id := "teams", app_name := some "Microsoft Teams",
    title := "Urgent: approve this", body := some "alex, please approve",
    sender := some "The Boss" }

theorem heuristic_score_is_clamped_category_sum_witness :
    lowPriorityMatches c3cfg c3n = false ∧
    ((score_notification c3cfg c3n).score = specScore c3cfg c3n ∧
     (score_notification c3cfg c3n).decision
       = specDecision c3cfg (specScore c3cfg c3n)) :=
  ⟨by decide, heuristic_score_is_clamped_category_sum c3cfg c3n (by decide)⟩

/-- C4: a notification whose app name matches an entry of the configured
low-priority list scores 0.1 with decision "suppress", regardless of every
other signal: the check short-circuits the VIP/priority/alias/urgent/action
logic entirely. -/
theorem low_priority_app_short_circuits (cfg : ScoringConfig)
    (n : Notification) (h : lowPriorityMatches cfg n = true) :
    score_notification cfg n =
      { score := 1/10
        decision := "suppress"
        rationale := "Low-priority app: " ++ appNameOf n
        tags := ["low-priority-app"] } := by
  rw [score_notification, h]
  simp

/- The C4 witness notification matches every other category (VIP sender,
priority app, alias, urgent and action keywords) yet is still suppressed. -/
def c4cfg : ScoringConfig :=
  { vip_senders := ["boss"], urgent_keywords := ["urgent"],
    action_keywords := ["approve"], priority_apps := ["Phone"],
    low_priority_apps := ["Phone Link"], push_threshold := 6/10,
    user_aliases := ["alex"] }

def c4n : Notification :=
  { app_id := "phonelink", app_name := some "Phone Link",
    title := "urgent: approve now", body := some "alex must decide",
    sender := some "The Boss" }

theorem low_priority_app_short_circuits_witness :
    lowPriorityMatches c4cfg c4n = true ∧
    vipMatches c4cfg c4n = true ∧ urgentMatches c4cfg c4n = true ∧
    score_notification c4cfg c4n =
      { score := 1/10
        decision := "suppress"
        rationale := "Low-priority app: " ++ appNameOf c4n
        tags := ["low-priority-app"] } :=
  ⟨by decide, by decide, by decide,
    low_priority_app_short_circuits c4cfg c4n (by decide)⟩

theorem bonus_mono {b₁ b₂ : Bool} {c : ℚ} (hc : 0 ≤ c)
    (h : b₂ = true → b₁ = true) :
    (if b₂ then c else 0) ≤ (if b₁ then c else 0) := by
  cases b₂ with
  | false => cases b₁ <;> simp [hc]
  | true => rw [h rfl]

/-- C5: off the low-priority path, the heuristic score is monotone in the
set of matching categories — whenever every category matching for `n₂` also
matches for `n₁`, the (clamped) score of `n₁` is at least that of `n₂`. -/
theorem heuristic_score_monotone_in_categories (cfg : ScoringConfig)
    (n₁ n₂ : Notification)
    (h₁ : lowPriorityMatches cfg n₁ = false)
    (h₂ : lowPriorityMatches cfg n₂ = false)
    (hvip : vipMatches cfg n₂ = true → vipMatches cfg n₁ = true)
    (hprio : prioMatches cfg n₂ = true → prioMatches cfg n₁ = true)
    (hal : aliasMatches cfg n₂ = true → aliasMatches cfg n₁ = true)
    (hurg : urgentMatches cfg n₂ = true → urgentMatches cfg n₁ = true)
    (hact : actionMatches cfg n₂ = true → actionMatches cfg n₁ = true) :
    (score_notification cfg n₂).score ≤ (score_notification cfg n₁).score := by
  rw [score_notification_score_of_not_low cfg n₁ h₁,
    score_notification_score_of_not_low cfg n₂ h₂]
  unfold specScore
  refine min_le_min le_rfl ?_
  have h5 : (0 : ℚ) ≤ 5/10 := by norm_num
  have h2 : (0 : ℚ) ≤ 2/10 := by norm_num
  have h3 : (0 : ℚ) ≤ 3/10 := by norm_num
  exact add_le_add
    (add_le_add
      (add_le_add (add_le_add (bonus_mono h5 hvip) (bonus_mono h2 hprio))
        (bonus_mono h3 hal))
      (bonus_mono h3 hurg))
    (bonus_mono h2 hact)

def c5cfg : ScoringConfig :=
  { vip_senders := ["boss"], urgent_keywords := ["urgent"],
    action_keywords := ["approve"], priority_apps := ["Teams"],
    low_priority_apps := ["Settings"], push_threshold := 6/10,
    user_aliases := ["alex"] }

/-- VIP sender and urgent keyword both match. -/
def c5n1 : Notification :=
  { app_id := "mail", title := "urgent question", sender := some "boss" }

/-- Only the VIP sender matches: its category set is a subset of `c5n1`'s. -/
def c5n2 : Notification :=
  { app_id := "mail", title := "hello", sender := some "boss" }

theorem heuristic_score_monotone_in_categories_witness :
    (score_notification c5cfg c5n2).score ≤ (score_notification c5cfg c5n1).score :=
  heuristic_score_monotone_in_categories c5cfg c5n1 c5n2
    (by decide) (by decide) (by decide) (by decide) (by decide) (by decide)
    (by decide)

/-! ## LLM response parsing
Embedding of `llm_scorer.py`, lines 65-93 (`LLMScoringResult`) and 240-271
(`LLMScorer._parse_response`).  Python's `json.loads` is modelled by a
fuel-indexed strict JSON parser over character lists; `\uXXXX` string
escapes are outside the modelled fragment (the model rejects them where
Python would accept). -/

/-- The `'\x7b'` character (written by code so that no brace appears in a
literal). -/
def lbraceC : Char := Char.ofNat 123

/-- The `'\x7d'` character. -/
def rbraceC : Char := Char.ofNat 125

/-- JSON values as produced by `json.loads`. -/
inductive Json where
  | null : Json
  | bool (b : Bool) : Json
  | num (q : ℚ) : Json
  | str (s : String) : Json
  | arr (elems : List Json) : Json
  | obj (members : List (String × Json)) : Json

/-- The four JSON insignificant-whitespace characters. -/
def jsonWsChars : List Char := [' ', '\t', '\n', '\r']

/-- Drop leading JSON whitespace. -/
def skipJWs : List Char → List Char
  | c :: cs => if jsonWsChars.contains c then skipJWs cs else c :: cs
  | [] => []

/-- The single-character JSON string escapes as a lookup table
(`\uXXXX` unsupported). -/
def escTable : List (Char × Char) :=
  [('"', '"'), ('\\', '\\'), ('/', '/'), ('n', '\n'),
    ('t', '\t'), ('r', '\r'), ('b', Char.ofNat 8), ('f', Char.ofNat 12)]

/-- Decode one escape character through the table. -/
def decodeEsc (c : Char) : Option Char :=
  (escTable.find? (fun p => p.1 == c)).map (fun p => p.2)

/-- Body of a JSON string, after the opening quote. -/
def parseJStrBody : Nat → List Char → List Char → Option (String × List Char)
  | 0, _, _ => none
  | _ + 1, _, [] => none
  | f + 1, acc, c :: rest =>
    if c == '"' then some (String.mk acc.reverse, rest)
    else if c == '\\' then
      match rest with
      | [] => none
      | e :: rest' =>
        match decodeEsc e with
        | some d => parseJStrBody f (d :: acc) rest'
        | none => none
    else parseJStrBody f (c :: acc) rest

def natOfDigits (ds : List Char) : Nat :=
  ds.foldl (fun a c => a * 10 + (c.toNat - 48)) 0

/-- A JSON number (integer part, optional fraction, optional exponent),
returned as an exact rational.  Leading zeros are tolerated (a harmless
superset of strict JSON). -/
def parseNum (cs : List Char) : Option (ℚ × List Char) :=
  let signed := match cs with
    | c :: t => if c == '-' then (true, t) else (false, cs)
    | [] => (false, cs)
  let ipSplit := signed.2.span (fun c => c.isDigit)
  if ipSplit.1.isEmpty then none
  else
    let fracSplit : Option (List Char) × List Char :=
      match ipSplit.2 with
      | c :: t =>
        if c == '.' then
          let ds := t.span (fun d => d.isDigit)
          (some ds.1, ds.2)
        else (none, ipSplit.2)
      | [] => (none, ipSplit.2)
    if fracSplit.1 = some [] then none
    else
      let expSplit : Option (Bool × List Char) × List Char :=
        match fracSplit.2 with
        | c :: t =>
          if c == 'e' || c == 'E' then
            let signedE := match t with
              | d :: t' =>
                if d == '-' then (true, t')
                else if d == '+' then (false, t')
                else (false, t)
              | [] => (false, t)
            let ds := signedE.2.span (fun d => d.isDigit)
            (some (signedE.1, ds.1), ds.2)
          else (none, fracSplit.2)
        | [] => (none, fracSplit.2)
      match expSplit.1 with
      | some (_, []) => none
      | _ =>
        let fds := fracSplit.1.getD []
        let mantissa : ℚ :=
          (natOfDigits ipSplit.1 : ℚ)
            + (natOfDigits fds : ℚ) / ((10 : ℚ) ^ fds.length)
        let scaled : ℚ :=
          match expSplit.1 with
          | some (es, eds) =>
            if es then mantissa / (10 : ℚ) ^ natOfDigits eds
            else mantissa * (10 : ℚ) ^ natOfDigits eds
          | none => mantissa
        some (if signed.1 then -scaled else scaled, expSplit.2)

mutual

/-- One JSON value. -/
def parseVal : Nat → List Char → Option (Json × List Char)
  | 0, _ => none
  | fuel + 1, cs =>
    match skipJWs cs with
    | [] => none
    | c :: rest =>
      if c == '"' then
        match parseJStrBody (fuel + 1) [] rest with
        | some (s, r) => some (.str s, r)
        | none => none
      else if c == lbraceC then
        match skipJWs rest with
        | d :: rest' =>
          if d == rbraceC then some (.obj [], rest')
          else parseMembers fuel (d :: rest') []
        | [] => none
      else if c == '[' then
        match skipJWs rest with
        | d :: rest' =>
          if d == ']' then some (.arr [], rest')
          else parseElems fuel (d :: rest') []
        | [] => none
      else if leadMatch "true".toList (c :: rest) then
        some (.bool true, (c :: rest).drop 4)
      else if leadMatch "false".toList (c :: rest) then
        some (.bool false, (c :: rest).drop 5)
      else if leadMatch "null".toList (c :: rest) then
        some (.null, (c :: rest).drop 4)
      else
        match parseNum (c :: rest) with
        | some (q, r) => some (.num q, r)
        | none => none

/-- The members of a JSON object, after the opening brace. -/
def parseMembers : Nat → List Char → List (String × Json) →
    Option (Json × List Char)
  | 0, _, _ => none
  | fuel + 1, cs, acc =>
    match skipJWs cs with
    | c :: rest =>
      if c == '"' then
        match parseJStrBody (fuel + 1) [] rest with
        | some (k, r₁) =>
          match skipJWs r₁ with
          | ':' :: r₂ =>
            match parseVal fuel r₂ with
            | some (v, r₃) =>
              match skipJWs r₃ with
              | d :: r₄ =>
                if d == ',' then parseMembers fuel r₄ (acc ++ [(k, v)])
                else if d == rbraceC then some (.obj (acc ++ [(k, v)]), r₄)
                else none
              | [] => none
            | none => none
          | _ => none
        | none => none
      else none
    | [] => none

/-- The elements of a JSON array, after the opening bracket. -/
def parseElems : Nat → List Char → List Json → Option (Json × List Char)
  | 0, _, _ => none
  | fuel + 1, cs, acc =>
    match parseVal fuel cs with
    | some (v, r) =>
      match skipJWs r with
      | d :: r₂ =>
        if d == ',' then parseElems fuel r₂ (acc ++ [v])
        else if d == ']' then some (.arr (acc ++ [v]), r₂)
        else none
      | [] => none
    | none => none

end

/-- Model of `json.loads`: a single JSON value followed only by whitespace;
anything else raises `JSONDecodeError`, modelled as `none`. -/
def jsonLoads (s : String) : Option Json :=
  match parseVal (s.length * 2 + 8) s.toList with
  | some (v, rest) => if (skipJWs rest).isEmpty then some v else none
  | none => none

/-- `LLMScoringResult` (llm_scorer.py lines 65-73).  The source stores
`decision`/`rationale`/`tags` untyped, straight out of `data.get`; they are
modelled as JSON values (Python strings and lists appear as `.str`/`.arr`).
The float `score` is the result of `float(...)`, modelled as a rational. -/
structure LLMScoringResult where
  score : ℚ
  decision : Json
  rationale : Json
  tags : Json
  raw_response : Option String := none

/-- `LLMScoringResult.fallback` (lines 85-93): the safe result used when
the LLM response cannot be used. -/
def LLMScoringResult.fallback (reason : String) : LLMScoringResult :=
  { score := 5/10
    decision := .str "summarize"
    rationale := .str ("Fallback: " ++ reason)
    tags := .arr [.str "llm-fallback"] }

/-- `data.get(k)` on a dict built by `json.loads`: duplicate keys keep the
last binding. -/
def jGet (k : String) (members : List (String × Json)) : Option Json :=
  lookupA k members.reverse

/-- `data.get(k, default)`. -/
def jGetD (k : String) (d : Json) (members : List (String × Json)) : Json :=
  (jGet k members).getD d

/-- Python `float(str)`: optional surrounding whitespace and sign, then a
decimal literal (`"1"`, `"1.5"`, `".5"`, `"1."`, exponents).  `inf`/`nan`
are outside the modelled fragment. -/
def pyFloatOfString (s : String) : Option ℚ :=
  let cs := skipJWs s.toList
  let signed := match cs with
    | c :: t =>
      if c == '-' then (true, t) else if c == '+' then (false, t) else (false, cs)
    | [] => (false, cs)
  let ipSplit := signed.2.span (fun c => c.isDigit)
  let fracSplit : List Char × List Char :=
    match ipSplit.2 with
    | c :: t => if c == '.' then t.span (fun d => d.isDigit) else ([], ipSplit.2)
    | [] => ([], ipSplit.2)
  if ipSplit.1.isEmpty && fracSplit.1.isEmpty then none
  else
    let expSplit : Option (Bool × List Char) × List Char :=
      match fracSplit.2 with
      | c :: t =>
        if c == 'e' || c == 'E' then
          let signedE := match t with
            | d :: t' =>
              if d == '-' then (true, t')
              else if d == '+' then (false, t')
              else (false, t)
            | [] => (false, t)
          let ds := signedE.2.span (fun d => d.isDigit)
          (some (signedE.1, ds.1), ds.2)
        else (none, fracSplit.2)
      | [] => (none, fracSplit.2)
    match expSplit.1 with
    | some (_, []) => none
    | _ =>
      if (skipJWs expSplit.2).isEmpty then
        let mantissa : ℚ :=
          (natOfDigits ipSplit.1 : ℚ)
            + (natOfDigits fracSplit.1 : ℚ) / ((10 : ℚ) ^ fracSplit.1.length)
        let scaled : ℚ :=
          match expSplit.1 with
          | some (es, eds) =>
            if es then mantissa / (10 : ℚ) ^ natOfDigits eds
            else mantissa * (10 : ℚ) ^ natOfDigits eds
          | none => mantissa
        some (if signed.1 then -scaled else scaled)
      else none

/-- Python `float(x)` applied to a JSON value: numbers and booleans convert,
numeric strings parse, everything else raises (`none`). -/
def pyFloat : Json → Option ℚ
  | .num q => some q
  | .bool b => some (if b then 1 else 0)
  | .str s => pyFloatOfString s
  | _ => none

/-- `LLMScoringResult.from_json` (lines 75-83).  `float(data.get("score",
0.5))` raises on a non-numeric score — modelled as `none`, which propagates
out of `_parse_response` (only `JSONDecodeError` is caught there). -/
def from_json (data : List (String × Json)) (raw : Option String) :
    Option LLMScoringResult :=
  match pyFloat (jGetD "score" (.num (5/10)) data) with
  | some q =>
    some
      { score := q
        decision := jGetD "decision" (.str "summarize") data
        rationale := jGetD "rationale" (.str "No rationale provided") data
        tags := jGetD "tags" (.arr []) data
        raw_response := raw }
  | none => none

/-- Python whitespace for `str.strip()` (the JSON four plus vertical tab
and form feed). -/
def isPyWs (c : Char) : Bool :=
  (jsonWsChars ++ [Char.ofNat 11, Char.ofNat 12]).contains c

/-- `response.strip()` (line 243). -/
def pyStrip (s : String) : List Char :=
  ((s.toList.dropWhile isPyWs).reverse.dropWhile isPyWs).reverse

/-- A markdown fence marker. -/
def fence3 : List Char := "```".toList

/-- `response.split("\n")` (line 247): splits on every newline, keeping
empty segments. -/
def splitNl : List Char → List (List Char)
  | [] => [[]]
  | c :: t =>
    if c == '\n' then [] :: splitNl t
    else
      match splitNl t with
      | [] => [[c]]
      | l :: ls => (c :: l) :: ls

/-- Lines 249-256: keep the lines strictly inside fence markers, toggling
`in_block` at each line that starts with three backticks. -/
def fenceFilter : List (List Char) → Bool → List (List Char)
  | [], _ => []
  | l :: ls, inb =>
    if leadMatch fence3 l then fenceFilter ls (!inb)
    else if inb then l :: fenceFilter ls inb
    else fenceFilter ls inb

/-- `"\n".join(json_lines)` (line 257). -/
def joinNl : List (List Char) → List Char
  | [] => []
  | [l] => l
  | l :: ls => l ++ '\n' :: joinNl ls

/-- Lines 243-257: strip, then unwrap a leading markdown code fence. -/
def preprocess (response : String) : List Char :=
  let r := pyStrip response
  if leadMatch fence3 r then joinNl (fenceFilter (splitNl r) false) else r

/-- Python `s.find(c)`: index of the first occurrence. -/
def idxOf (c : Char) : List Char → Option Nat
  | [] => none
  | a :: t => if a == c then some 0 else (idxOf c t).map (· + 1)

/-- Python `s.rfind(c)`: index of the last occurrence. -/
def lastIdxOf (c : Char) (l : List Char) : Option Nat :=
  (idxOf c l.reverse).map (fun i => l.length - 1 - i)

/-- Lines 260-263: `start = response.find("\x7b")`, `end =
response.rfind("\x7d") + 1`, and when `start >= 0 and end > start` the slice
`response[start:end]` is handed to `json.loads`; `none` covers both a
missing/ill-ordered brace pair and a `JSONDecodeError`. -/
def jsonSliceParse (r : List Char) : Option Json :=
  match idxOf lbraceC r, lastIdxOf rbraceC r with
  | some start, some stop =>
    if start ≤ stop then jsonLoads (String.mk ((r.take (stop + 1)).drop start))
    else none
  | _, _ => none

/-- `LLMScorer._parse_response` (lines 240-271).  `none` models an uncaught
exception escaping the method (possible only via `float(...)` inside
`from_json`; a successful parse of a slice that starts at a brace is always
an object, so the `some _` row is unreachable — Python would raise
`AttributeError` there). -/
def parse_response (response : String) : Option LLMScoringResult :=
  let r := preprocess response
  match jsonSliceParse r with
  | some (.obj members) => from_json members (some (String.mk r))
  | some _ => none
  | none =>
    some (.fallback ("Could not parse response: " ++ String.mk (r.take 100)))

/-! ### Spec-side parser for the C6 refinement comparison -/

/-- Scan from an opening brace to the brace that balances it (the spec's
"first balanced JSON object"; brace counting, as the spec's words imply). -/
def takeBalanced : List Char → Nat → List Char → Option (List Char)
  | [], _, _ => none
  | c :: t, depth, acc =>
    if c == lbraceC then takeBalanced t (depth + 1) (c :: acc)
    else if c == rbraceC then
      if depth == 1 then some (c :: acc).reverse
      else takeBalanced t (depth - 1) (c :: acc)
    else takeBalanced t depth (c :: acc)

/-- The first balanced brace-delimited slice of the text. -/
def firstBalancedSlice (cs : List Char) : Option (List Char) :=
  match idxOf lbraceC cs with
  | none => none
  | some i => takeBalanced (cs.drop i) 0 []

/-- Follows the spec's words ("must extract the first balanced JSON object
found"), for comparison against `parse_response`: identical except that the
slice handed to `json.loads` ends at the brace balancing the first `\x7b`,
not at the last `\x7d` of the whole response. -/
def parse_response_specModel (response : String) : Option LLMScoringResult :=
  let r := preprocess response
  match (firstBalancedSlice r).bind (fun sl => jsonLoads (String.mk sl)) with
  | some (.obj members) => from_json members (some (String.mk r))
  | some _ => none
  | none =>
    some (.fallback ("Could not parse response: " ++ String.mk (r.take 100)))

/-- The response on which first-{-to-last-} slicing and first-balanced-object
extraction disagree: `\x7b"score": 0.9\x7d x\x7d`. -/
def c6cex : String := "\x7b\"score\": 0.9\x7d x\x7d"

/-- C6 counterexample: the parser does not extract the first balanced JSON
object.  On `c6cex` the code slices from the first `\x7b` to the *last*
`\x7d`, `json.loads` fails on that slice, and the fallback (score 0.5) is
returned — while extracting the first balanced object would parse
`\x7b"score": 0.9\x7d` and yield score 0.9. -/
theorem parse_response_not_first_balanced :
    (parse_response c6cex).map (fun r => r.score) = some (5/10) ∧
    (parse_response_specModel c6cex).map (fun r => r.score) = some (9/10) ∧
    parse_response c6cex ≠ parse_response_specModel c6cex := by
  have h1 : (parse_response c6cex).map (fun r => r.score) = some (5/10) := by
    with_unfolding_all rfl
  have h2 : (parse_response_specModel c6cex).map (fun r => r.score) = some (9/10) := by
    with_unfolding_all rfl
  refine ⟨h1, h2, fun h => ?_⟩
  rw [h] at h1
  rw [h1] at h2
  exact absurd (Option.some.inj h2) (by norm_num)

/-- C6 (amended): the parser tolerates code-fenced responses and slices from
the first `\x7b` to the last `\x7d`; whenever that slice yields no JSON value
(no brace pair, or `json.loads` fails on it), `_parse_response` returns —
rather than raising — the safe fallback result with score 0.5 and decision
"summarize". -/
theorem parse_response_unparsable_falls_back (response : String)
    (h : jsonSliceParse (preprocess response) = none) :
    ∃ res, parse_response response = some res ∧
      res.score = 5/10 ∧ res.decision = .str "summarize" := by
  refine ⟨LLMScoringResult.fallback
    ("Could not parse response: " ++ String.mk ((preprocess response).take 100)),
    ?_, rfl, rfl⟩
  unfold parse_response
  simp only [h]

theorem parse_response_unparsable_falls_back_witness :
    jsonSliceParse (preprocess "no json here") = none ∧
    ∃ res, parse_response "no json here" = some res ∧
      res.score = 5/10 ∧ res.decision = .str "summarize" :=
  ⟨by with_unfolding_all rfl,
    parse_response_unparsable_falls_back "no json here" (by with_unfolding_all rfl)⟩

/-- Code-fence tolerance, exercised concretely: a response wrapped in a
markdown fence parses to its JSON score. -/
theorem parse_response_tolerates_fences :
    (parse_response
        "```json\n\x7b\"score\": 0.9, \"decision\": \"push\"\x7d\n```").map
      (fun r => r.score) = some (9/10) := by with_unfolding_all rfl

/-! ## Session manager state
Embedding of `session_manager.py` (`SessionManager`) and
`models.py` (`SessionStatus`, `SessionInfo`). -/

/-- `SessionStatus` (models.py lines 10-17). -/
inductive SessionStatus where
  | initializing
  | ready
  | executing
  | error
  | stopped
deriving DecidableEq, Repr

/-- `SessionInfo` (models.py lines 20-29).  `created_at`/`last_activity`
wall-clock fields are not modelled (no claim reads them); the free-form
metadata dict holds the string-valued entries the manager writes
(`"error"`, `"last_error"`). -/
structure SessionInfo where
  session_id : String
  bundle : String
  status : SessionStatus
  message_count : Nat := 0
  metadata : List (String × String) := []
deriving DecidableEq, Repr

/-- The backing `AmplifierSession` handle, opaque to the registry: only its
identity matters to the claims (its `execute`/`cleanup` behaviour enters the
model as explicit outcome parameters). -/
structure MSession where
  session_id : String
deriving DecidableEq, Repr

/-- The mutable state of a `SessionManager` (session_manager.py lines
39-42): the live session map, the info map, and the per-session lock table
(modelled as the set of session ids owning a lock; lock dynamics are
handled by the interleaving model below). -/
structure SMState where
  sessions : List (String × MSession) := []
  session_info : List (String × SessionInfo) := []
  session_locks : List String := []
deriving DecidableEq, Repr

/-- `SessionNotFoundError` (lines 16-21) plus the `KeyError` a direct
`self._session_info[...]` / `self._session_locks[...]` subscript would
raise on maps that went out of sync (never on states the manager builds). -/
inductive SMErr where
  | notFound (session_id : String)
  | keyError (session_id : String)
deriving DecidableEq, Repr

/-- The errors `create_session` can raise: `ValueError` for a duplicate live
id (line 84) or the re-raised executor construction failure (line 117). -/
inductive CreateErr where
  | alreadyExists (session_id : String)
  | creationFailed (msg : String)
deriving DecidableEq, Repr

/-- `SessionManager.create_session` (lines 61-117).  `session_id` is the
explicit id (the time-based generation of a missing id, line 81, is not
modelled); `build` is the outcome of `_create_amplifier_session`, the
external-collaborator call whose failure is re-raised.  The state is
returned in both outcomes, as the Python method mutates `self` before
raising. -/
def create_session (st : SMState) (bundle session_id : String)
    (build : Except String MSession) : Except CreateErr String × SMState :=
  if (lookupA session_id st.sessions).isSome then
    (.error (.alreadyExists session_id), st)
  else
    let info : SessionInfo :=
      { session_id := session_id, bundle := bundle, status := .initializing }
    let st₁ : SMState :=
      { st with
        session_info := insertA session_id info st.session_info
        session_locks :=
          if st.session_locks.contains session_id then st.session_locks
          else st.session_locks ++ [session_id] }
    match build with
    | .ok session =>
      (.ok session_id,
        { st₁ with
          sessions := insertA session_id session st₁.sessions
          session_info :=
            insertA session_id { info with status := .ready } st₁.session_info })
    | .error e =>
      (.error (.creationFailed e),
        { st₁ with
          session_info :=
            insertA session_id
              { info with
                status := .error
                metadata := insertA "error" e info.metadata }
              st₁.session_info })

/-- `SessionManager.get_session` (lines 305-319). -/
def get_session (st : SMState) (session_id : String) : Except SMErr MSession :=
  match lookupA session_id st.sessions with
  | none => .error (.notFound session_id)
  | some session => .ok session

/-- `SessionManager.get_session_info` (lines 321-325). -/
def get_session_info (st : SMState) (session_id : String) :
    Except SMErr SessionInfo :=
  match lookupA session_id st.session_info with
  | none => .error (.notFound session_id)
  | some info => .ok info

/-- `SessionManager.list_sessions` (lines 327-329). -/
def list_sessions (st : SMState) : List SessionInfo :=
  st.session_info.map (·.2)

/-- The outcome of a non-streaming `execute` call. -/
inductive ExecOutcome where
  | notFound (session_id : String)
  | keyError (session_id : String)
  | failed (msg : String) (st : SMState)
  | success (response : String) (st : SMState)
deriving DecidableEq, Repr

/-- `SessionManager.execute` with `stream=False` (lines 331-368), as a
sequential state transformer: the `get_session` lookup, then — inside the
session's lock — status `EXECUTING`, the backing `session.execute(prompt)`
call whose outcome is the parameter `run`, and either message-count bump
plus `READY`, or `ERROR` plus a `last_error` metadata entry with the
exception re-raised.  (The lock interleaving itself is modelled separately
below.) -/
def execute_nostream (st : SMState) (session_id : String)
    (run : Except String String) : ExecOutcome :=
  match lookupA session_id st.sessions with
  | none => .notFound session_id
  | some _ =>
    match lookupA session_id st.session_info with
    | none => .keyError session_id
    | some info =>
      let info₁ := { info with status := SessionStatus.executing }
      match run with
      | .ok r =>
        .success r
          { st with
            session_info :=
              insertA session_id
                { info₁ with
                  message_count := info₁.message_count + 1
                  status := .ready }
                st.session_info }
      | .error e =>
        .failed e
          { st with
            session_info :=
              insertA session_id
                { info₁ with
                  status := .error
                  metadata := insertA "last_error" e info₁.metadata }
                st.session_info }

/-- `SessionManager.stop_session` (lines 451-466): `NotFound` when the id is
absent from the live map, otherwise the session is popped, `cleanup()` runs
with any error logged and swallowed (`cleanupFails` has no effect on the
result), and the info record is set to `STOPPED`. -/
def stop_session (st : SMState) (session_id : String)
    (_cleanupFails : Bool) : Except SMErr SMState :=
  match lookupA session_id st.sessions with
  | none => .error (.notFound session_id)
  | some _ =>
    match lookupA session_id st.session_info with
    | none => .error (.keyError session_id)
    | some info =>
      .ok
        { st with
          sessions := eraseA session_id st.sessions
          session_info :=
            insertA session_id { info with status := .stopped } st.session_info }

/-- C7: after a successful `stop_session`, the session is gone from the live
map with its info record left `STOPPED`: a `get_session` on the same id
fails with `NotFound`, and a second `stop_session` also fails with
`NotFound` (whether or not cleanup failed), rather than erroring differently
or re-running cleanup. -/
theorem stop_then_get_not_found (st : SMState) (session_id : String)
    (cf cf₂ : Bool) (st' : SMState)
    (h : stop_session st session_id cf = .ok st') :
    get_session st' session_id = .error (.notFound session_id) ∧
    stop_session st' session_id cf₂ = .error (.notFound session_id) ∧
    ∃ info, lookupA session_id st'.session_info = some info ∧
      info.status = .stopped := by
  unfold stop_session at h
  cases hs : lookupA session_id st.sessions with
  | none => rw [hs] at h; simp at h
  | some s =>
    rw [hs] at h
    cases hi : lookupA session_id st.session_info with
    | none => rw [hi] at h; simp at h
    | some info =>
      rw [hi] at h
      simp only [Except.ok.injEq] at h
      subst h
      refine ⟨?_, ?_, ?_⟩
      · unfold get_session
        rw [show lookupA session_id (eraseA session_id st.sessions) = none from
          lookupA_eraseA_self session_id st.sessions]
      · unfold stop_session
        rw [show lookupA session_id (eraseA session_id st.sessions) = none from
          lookupA_eraseA_self session_id st.sessions]
      · exact ⟨{ info with status := .stopped },
          lookupA_insertA_self session_id _ st.session_info, rfl⟩

def c7st : SMState :=
  { sessions := [("s1", { session_id := "s1" })]
    session_info :=
      [("s1", { session_id := "s1", bundle := "foundation", status := .ready })]
    session_locks := ["s1"] }

/-- The state `stop_session c7st "s1"` produces. -/
def c7stAfter : SMState :=
  { sessions := []
    session_info :=
      [("s1", { session_id := "s1", bundle := "foundation", status := .stopped })]
    session_locks := ["s1"] }

theorem stop_then_get_not_found_witness :
    get_session c7stAfter "s1" = .error (.notFound "s1") ∧
    stop_session c7stAfter "s1" false = .error (.notFound "s1") ∧
    ∃ info, lookupA "s1" c7stAfter.session_info = some info ∧
      info.status = .stopped :=
  stop_then_get_not_found c7st "s1" false false c7stAfter (by rfl)

/-- C8: when the executor build fails, `create_session` re-raises the
failure (as the `CreationError` wrap), leaves a `getInfo`-retrievable and
listable record with status `ERROR` carrying the error message in its
metadata, and a subsequent `execute` against that id fails with
`SessionNotFoundError` for every executor behaviour — it cannot hang or
succeed. -/
theorem create_failure_leaves_error_record (st : SMState)
    (bundle session_id e : String)
    (hlive : lookupA session_id st.sessions = none) (_he : e ≠ "") :
    (create_session st bundle session_id (.error e)).1
      = .error (.creationFailed e) ∧
    (∃ info,
      get_session_info (create_session st bundle session_id (.error e)).2
          session_id = .ok info ∧
      info.status = .error ∧
        lookupA "error" info.metadata = some e ∧
        info ∈ list_sessions (create_session st bundle session_id (.error e)).2) ∧
    ∀ run, execute_nostream (create_session st bundle session_id (.error e)).2
      session_id run = .notFound session_id := by
  have hcond : (lookupA session_id st.sessions).isSome = false := by
    rw [hlive]; rfl
  unfold create_session
  rw [hcond]
  simp only [Bool.false_eq_true, if_false]
  refine ⟨trivial, ⟨?_, ?_, ?_, ?_, ?_⟩, ?_⟩
  case _ => exact
    { session_id := session_id, bundle := bundle, status := .error
      message_count := 0, metadata := insertA "error" e [] }
  · unfold get_session_info
    rw [lookupA_insertA_self]
  · rfl
  · exact lookupA_insertA_self "error" e []
  · exact lookupA_mem (lookupA_insertA_self session_id _ _)
  · intro run
    unfold execute_nostream
    rw [hlive]

def c8st : SMState := {}

theorem create_failure_leaves_error_record_witness :
    (create_session c8st "foundation" "s1" (.error "boom")).1
      = .error (.creationFailed "boom") ∧
    (∃ info,
      get_session_info (create_session c8st "foundation" "s1" (.error "boom")).2
          "s1" = .ok info ∧
      info.status = .error ∧
      lookupA "error" info.metadata = some "boom" ∧
      info ∈ list_sessions
        (create_session c8st "foundation" "s1" (.error "boom")).2) ∧
    ∀ run, execute_nostream
      (create_session c8st "foundation" "s1" (.error "boom")).2 "s1" run
      = .notFound "s1" :=
  create_failure_leaves_error_record c8st "foundation" "s1" "boom"
    (by decide) (by decide)

/-- C10 (implicit): a session id whose earlier create failed (info record
present with status `ERROR`, id absent from the live map) can be created
again: the duplicate check reads only the live map, so the result is never
`AlreadyExists`, and the new attempt installs a fresh info record —
`READY` with empty metadata on success, or a fresh `ERROR` record carrying
only the new message — discarding the previous diagnostic metadata
whatever it was. -/
theorem create_after_failed_create_retries (st : SMState)
    (bundle session_id : String) (info₀ : SessionInfo)
    (build : Except String MSession)
    (_hinfo : lookupA session_id st.session_info = some info₀)
    (_hstat : info₀.status = .error)
    (hlive : lookupA session_id st.sessions = none) :
    (create_session st bundle session_id build).1
      ≠ .error (.alreadyExists session_id) ∧
    lookupA session_id (create_session st bundle session_id build).2.session_info
      = some (match build with
        | .ok _ =>
          { session_id := session_id, bundle := bundle
            status := SessionStatus.ready, message_count := 0, metadata := [] }
        | .error e =>
          { session_id := session_id, bundle := bundle
            status := SessionStatus.error, message_count := 0
            metadata := [("error", e)] }) := by
  have hcond : (lookupA session_id st.sessions).isSome = false := by
    rw [hlive]; rfl
  unfold create_session
  rw [hcond]
  simp only [Bool.false_eq_true, if_false]
  cases build with
  | ok s =>
    refine ⟨by simp, ?_⟩
    rw [lookupA_insertA_self]
  | error e =>
    refine ⟨by simp, ?_⟩
    rw [lookupA_insertA_self]
    rfl

def c10st : SMState :=
  { sessions := []
    session_info :=
      [("s1",
        { session_id := "s1", bundle := "foundation", status := .error
          metadata := [("error", "old failure")] })]
    session_locks := ["s1"] }

theorem create_after_failed_create_retries_witness :
    (create_session c10st "foundation" "s1" (.ok { session_id := "s1" })).1
      ≠ .error (.alreadyExists "s1") ∧
    lookupA "s1"
        (create_session c10st "foundation" "s1"
          (.ok { session_id := "s1" })).2.session_info
      = some
        { session_id := "s1", bundle := "foundation"
          status := SessionStatus.ready, message_count := 0, metadata := [] } :=
  create_after_failed_create_retries c10st "foundation" "s1"
    { session_id := "s1", bundle := "foundation", status := .error
      metadata := [("error", "old failure")] }
    (.ok { session_id := "s1" }) (by decide) (by decide) (by decide)

/-! ## Device registry
Embedding of `device_manager.py` (`DeviceManager.disconnect`, lines 61-67,
and `DeviceManager.send_to_device`, lines 87-114). -/

/-- `DeviceInfo` (models.py lines 109-117); wall-clock `connected_at` /
`last_seen` are opaque `Nat` ticks. -/
structure DeviceInfo where
  device_id : String
  device_name : Option String := none
  platform : String := "unknown"
  connected_at : Nat := 0
  last_seen : Nat := 0
  capabilities : List String := []
deriving DecidableEq, Repr

/-- A live WebSocket handle; the only behaviour the claims need is whether
the next `send_json` on it succeeds (`sendOk = false` models a transport
write that raises). -/
structure WS where
  sendOk : Bool
deriving DecidableEq, Repr

/-- The mutable state of a `DeviceManager` (device_manager.py lines 22-25):
live connections and last-known device info. -/
structure DMState where
  connections : List (String × WS) := []
  device_info : List (String × DeviceInfo) := []
deriving DecidableEq, Repr

/-- `if device_id in self._device_info: ...last_seen = now` (used by both
`disconnect` and `send_to_device`). -/
def touchLastSeen (device_id : String) (now : Nat)
    (infos : List (String × DeviceInfo)) : List (String × DeviceInfo) :=
  match lookupA device_id infos with
  | none => infos
  | some info => insertA device_id { info with last_seen := now } infos

/-- `DeviceManager.disconnect` (lines 61-67): drop the transport handle,
keep (and touch) the last-known info. -/
def disconnect (st : DMState) (device_id : String) (now : Nat) : DMState :=
  { st with
    connections := eraseA device_id st.connections
    device_info := touchLastSeen device_id now st.device_info }

/-- `DeviceManager.send_to_device` (lines 87-114): `False` when no live
connection; on a successful `send_json`, touch `last_seen` and return
`True`; when `send_json` raises, the exception is caught, the device is
disconnected and `False` is returned — the transport error never escapes
(the function is total). -/
def send_to_device (st : DMState) (device_id : String) (now : Nat) :
    Bool × DMState :=
  match lookupA device_id st.connections with
  | none => (false, st)
  | some ws =>
    if ws.sendOk then
      (true, { st with device_info := touchLastSeen device_id now st.device_info })
    else
      (false, disconnect st device_id now)

/-- C9: `send_to_device` returns `false` (leaving the registry unchanged)
when the device has no live connection, and when the transport-level send
fails it prunes the dead connection — the id is no longer connected
afterwards — and returns `false`; in both cases no transport error reaches
the caller. -/
theorem send_to_device_self_healing (st : DMState) (device_id : String)
    (now : Nat) :
    (lookupA device_id st.connections = none →
      send_to_device st device_id now = (false, st)) ∧
    (∀ ws, lookupA device_id st.connections = some ws → ws.sendOk = false →
      (send_to_device st device_id now).1 = false ∧
      lookupA device_id (send_to_device st device_id now).2.connections
        = none) := by
  constructor
  · intro h
    unfold send_to_device
    rw [h]
  · intro ws hws hfail
    unfold send_to_device
    rw [hws]
    simp only [hfail, Bool.false_eq_true, if_false, disconnect]
    exact ⟨trivial, lookupA_eraseA_self device_id st.connections⟩

/-- A registry holding one live but dead-transport connection `d1` and one
never-connected id `d2`. -/
def c9st : DMState :=
  { connections := [("d1", { sendOk := false })]
    device_info := [("d1", { device_id := "d1" })] }

theorem send_to_device_self_healing_witness :
    (send_to_device c9st "d2" 5 = (false, c9st)) ∧
    ((send_to_device c9st "d1" 5).1 = false ∧
      lookupA "d1" (send_to_device c9st "d1" 5).2.connections = none) :=
  ⟨(send_to_device_self_healing c9st "d2" 5).1 (by rfl),
    (send_to_device_self_healing c9st "d1" 5).2 { sendOk := false }
      (by rfl) (by rfl)⟩

/-! ## Lock discipline of `execute` — interleaving semantics

Small-step model of the atomic actions of `SessionManager.execute`
(session_manager.py lines 331-368) and `_stream_execute` (lines 370-385)
against one session, under asyncio's cooperative scheduling: each logical
caller is a straight-line program of atomic instructions, and a schedule
interleaves them.  A step on the session's `asyncio.Lock` is enabled only
when the lock is free (acquisition order is FIFO; a schedule that steps a
blocked task is invalid), which is exactly asyncio's mutex semantics. -/

/-- The atomic actions a caller of `execute` performs on the shared
session entry. -/
inductive Instr where
  | acquire
  | release
  | setStatus (s : SessionStatus)
  | execStart
  | execEnd
  | bumpCount
deriving DecidableEq, Repr

/-- Shared state seen by the interleaved callers: the lock owner, the
session's status and message count, the set of tasks with a backing
executor invocation in flight, and whether two invocations ever
overlapped. -/
structure IState where
  lockOwner : Option Nat := none
  status : SessionStatus := .ready
  msgCount : Nat := 0
  inFlight : List Nat := []
  overlapped : Bool := false
deriving DecidableEq, Repr

def initIState : IState := {}

/-- One atomic step by task `tid`; `none` when the instruction is not
enabled (acquiring a held lock, releasing a lock the task does not own). -/
def stepI (tid : Nat) (i : Instr) (s : IState) : Option IState :=
  match i with
  | .acquire =>
    match s.lockOwner with
    | none => some { s with lockOwner := some tid }
    | some _ => none
  | .release =>
    if s.lockOwner = some tid then some { s with lockOwner := none } else none
  | .setStatus st => some { s with status := st }
  | .execStart =>
    some
      { s with
        inFlight := tid :: s.inFlight
        overlapped := s.overlapped || !s.inFlight.isEmpty }
  | .execEnd => some { s with inFlight := s.inFlight.erase tid }
  | .bumpCount => some { s with msgCount := s.msgCount + 1 }

/-- Run a schedule (a list of task indices) over the remaining programs;
`none` when the schedule picks a finished task or a disabled step. -/
def runSched (progs : List (List Instr)) (sched : List Nat) (s : IState) :
    Option (List (List Instr) × IState) :=
  match sched with
  | [] => some (progs, s)
  | tid :: rest =>
    match progs.get? tid with
    | none => none
    | some [] => none
    | some (i :: is) =>
      match stepI tid i s with
      | none => none
      | some s' => runSched (progs.set tid is) rest s'

/-- A non-streaming `execute` call (success path): lines 350 (acquire on
entering `async with`), 351 (`status = EXECUTING`), 360 (the awaited
`session.execute(prompt)`, as an invocation window), 361 (`message_count +=
1`), 362 (`status = READY`), 363 (the `return`, leaving `async with` and
releasing the lock). -/
def nonStreamProg : List Instr :=
  [.acquire, .setStatus .executing, .execStart, .execEnd, .bumpCount,
    .setStatus .ready, .release]

/-- A streaming `execute` call whose returned generator the caller fully
drains.  Lines 350-351 run under the lock, but the `return
self._stream_execute(...)` at line 357 leaves the `async with` block —
releasing the lock — before the generator has started; the caller then
drives `_stream_execute` (lines 377-381): the backing
`session.execute_stream(prompt)` window, then `message_count += 1` and
`status = READY`. -/
def streamDrainedProg : List Instr :=
  [.acquire, .setStatus .executing, .release, .execStart, .execEnd,
    .bumpCount, .setStatus .ready]

/-- A streaming `execute` call whose caller stops pulling mid-stream: the
generator is closed (the underlying executor window ends), but the
`GeneratorExit` thrown into `_stream_execute` is not an `Exception`, so
neither the epilogue (lines 380-381) nor the `except` branch (lines
382-385) runs — no further status write happens. -/
def streamAbandonedProg : List Instr :=
  [.acquire, .setStatus .executing, .release, .execStart, .execEnd]

/-- The schedule interleaving two streaming callers so that their executor
windows overlap: each caller runs `execute` to the point of returning the
generator (releasing the lock), then both start iterating. -/
def c1Sched : List Nat := [0, 0, 0, 1, 1, 1, 0, 1, 0, 1, 0, 0, 1, 1]

/-- C1 fails on the code: a valid interleaving of two streaming `execute`
calls against the same session in which both backing-executor invocations
are simultaneously in flight (`overlapped = true`) — the per-session lock
is released when the generator is returned, before the executor is invoked,
so streaming executions are not serialized. -/
theorem streaming_executions_can_overlap :
    (runSched [streamDrainedProg, streamDrainedProg] c1Sched
        initIState).map (fun r => r.2.overlapped) = some true := by
  rfl

/-- By contrast, the analogous attempt to overlap two *non-streaming*
callers is an invalid schedule: the second caller's `acquire` is blocked
while the first holds the lock, so the lock model itself does rule out
overlap on the non-streaming path. -/
theorem nonstreaming_blocked_schedule_invalid :
    runSched [nonStreamProg, nonStreamProg] [0, 0, 0, 1] initIState = none := by
  rfl

/-- Bounded exhaustive exploration of the interleaving tree: `true` when no
state reachable from `(progs, s)` by at most `fuel` valid steps has
overlapping executor windows. -/
def noOverlapReach (fuel : Nat) (progs : List (List Instr)) (s : IState) : Bool :=
  match fuel with
  | 0 => !s.overlapped
  | f + 1 =>
    !s.overlapped &&
      (List.range progs.length).all fun tid =>
        match progs.get? tid with
        | some (i :: is) =>
          match stepI tid i s with
          | some s' => noOverlapReach f (progs.set tid is) s'
          | none => true
        | _ => true

theorem noOverlapReach_here {fuel : Nat} {progs : List (List Instr)}
    {s : IState} (h : noOverlapReach fuel progs s = true) :
    s.overlapped = false := by
  cases fuel with
  | zero => simpa [noOverlapReach] using h
  | succ f =>
    rw [noOverlapReach, Bool.and_eq_true] at h
    simpa using h.1

theorem noOverlapReach_sound (sched : List Nat) :
    ∀ (fuel : Nat) (progs : List (List Instr)) (s : IState),
    noOverlapReach fuel progs s = true → sched.length ≤ fuel →
    ∀ r, runSched progs sched s = some r → r.2.overlapped = false := by
  induction sched with
  | nil =>
    intro fuel progs s h _ r hr
    obtain rfl : (progs, s) = r := by simpa [runSched] using hr
    exact noOverlapReach_here h
  | cons tid rest ih =>
    intro fuel progs s h hlen r hr
    cases fuel with
    | zero => simp at hlen
    | succ f =>
      rw [runSched] at hr
      cases hget : progs.get? tid with
      | none => simp only [hget] at hr; exact Option.noConfusion hr
      | some l =>
        cases l with
        | nil => simp only [hget] at hr; exact Option.noConfusion hr
        | cons i is =>
          simp only [hget] at hr
          cases hstep : stepI tid i s with
          | none => simp only [hstep] at hr; exact Option.noConfusion hr
          | some s' =>
            simp only [hstep] at hr
            rw [noOverlapReach, Bool.and_eq_true] at h
            have hall := h.2
            rw [List.all_eq_true] at hall
            have hlt : tid < progs.length := by
              by_contra hge
              rw [List.get?_eq_none.mpr (Nat.le_of_not_lt hge)] at hget
              exact absurd hget (by simp)
            have hb := hall tid (List.mem_range.mpr hlt)
            simp only [hget, hstep] at hb
            have hlen' : rest.length ≤ f := by
              simp only [List.length_cons] at hlen
              omega
            exact ih f (progs.set tid is) s' hb hlen' r hr

/-- The total number of instructions left across all callers. -/
def totalLen (progs : List (List Instr)) : Nat :=
  (progs.map List.length).sum

theorem totalLen_set {progs : List (List Instr)} {tid : Nat} {i : Instr}
    {is : List Instr} (h : progs.get? tid = some (i :: is)) :
    totalLen (progs.set tid is) + 1 = totalLen progs := by
  induction progs generalizing tid with
  | nil => simp [List.get?] at h
  | cons p t ihp =>
    cases tid with
    | zero =>
      simp only [List.get?, Option.some.injEq] at h
      subst h
      simp only [totalLen, List.set, List.map_cons, List.sum_cons, List.length_cons]
      omega
    | succ n =>
      simp only [List.get?] at h
      have := ihp h
      simp only [totalLen, List.set, List.map_cons, List.sum_cons] at this ⊢
      omega

theorem runSched_length_le (sched : List Nat) :
    ∀ (progs : List (List Instr)) (s : IState) r,
    runSched progs sched s = some r → sched.length ≤ totalLen progs := by
  induction sched with
  | nil => intro progs s r _; simp
  | cons tid rest ih =>
    intro progs s r hr
    rw [runSched] at hr
    cases hget : progs.get? tid with
    | none => simp only [hget] at hr; exact Option.noConfusion hr
    | some l =>
      cases l with
      | nil => simp only [hget] at hr; exact Option.noConfusion hr
      | cons i is =>
        simp only [hget] at hr
        cases hstep : stepI tid i s with
        | none => simp only [hstep] at hr; exact Option.noConfusion hr
        | some s' =>
          simp only [hstep] at hr
          have h1 := ih (progs.set tid is) s' r hr
          have h2 := totalLen_set hget
          simp only [List.length_cons]
          omega

/-- The counterpart to `streaming_executions_can_overlap`: over *every*
valid interleaving of two non-streaming `execute` callers against the same
session (every schedule, of any length), the executor windows never
overlap — the per-session lock fully serializes the non-streaming path.
The root check explores the whole interleaving tree (14 steps deep). -/
theorem nonstreaming_executions_never_overlap (sched : List Nat)
    (r : List (List Instr) × IState)
    (hr : runSched [nonStreamProg, nonStreamProg] sched initIState = some r) :
    r.2.overlapped = false := by
  have hlen : sched.length ≤ 14 := by
    have h := runSched_length_le sched _ _ _ hr
    simpa [totalLen, nonStreamProg] using h
  exact noOverlapReach_sound sched 14 _ _ (by rfl) hlen r hr

/-- C2 fails on the code: a single streaming caller that abandons the
stream mid-iteration runs to completion of its (valid) schedule with the
session status still `EXECUTING` — no settling to `READY` or `ERROR` ever
happens — although the lock is indeed not held (it was released when the
generator was returned). -/
theorem abandoned_stream_leaves_executing :
    (runSched [streamAbandonedProg] [0, 0, 0, 0, 0] initIState).map
      (fun r => (r.2.status, r.2.lockOwner)) = some (.executing, none) := by
  rfl

/-- The first conjunct of C2 does hold when the stream is fully drained:
after a complete run of one streaming caller, the status has settled to
`READY`; the status is `EXECUTING` from the `setStatus` step until the
post-drain epilogue runs. -/
theorem drained_stream_settles_ready :
    (runSched [streamDrainedProg] [0, 0, 0, 0, 0, 0, 0] initIState).map
      (fun r => (r.2.status, r.2.lockOwner, r.2.msgCount))
      = some (.ready, none, 1) := by
  rfl

end AmpServer
